import Mathlib

/-!
Verification development for the weather-aggregator core module
(`src/python/weather.py`).

The Python module is shallowly embedded:
- Python `float` values are modelled as `ℚ` (the module only sums and
  divides them, so rational arithmetic mirrors the algebraic structure);
- `Optional[T]` becomes `Option T`;
- dynamically typed JSON payloads become the inductive type `Json`, and
  the exceptions Python raises on ill-typed attribute access / indexing
  become an explicit `Except PyErr` result;
- `dict` tallies (which preserve insertion order in Python 3.7+) become
  association lists to which new keys are appended at the end;
- `max(d, key=d.get)` (which keeps the first-encountered maximum while
  iterating in insertion order) becomes a left fold that replaces the
  current best only on a strictly greater count.
-/
/-! ### Data model: the `WeatherData` dataclass and the aggregate summary -/
/-- Embedding of the `WeatherData` dataclass (weather.py, lines 26-34).
`duration_ms` is filled in by the timing wrapper. -/
structure WeatherData where
  source : String
  temperature : ℚ := 0
  humidity : Option ℚ := none
  condition : String := ""
  error : Option String := none
  duration_ms : Option ℚ := none
  deriving DecidableEq, Repr

/-- The dictionary returned by `aggregate_weather` (weather.py, lines 381-387). -/
structure Summary where
  avg_temp : ℚ
  avg_hum : ℚ
  hum_count : ℕ
  condition : String
  valid_count : ℕ
  deriving DecidableEq, Repr

/-! ### Condition taxonomy and normalizer -/
/-- Contiguous-substring test on character lists. -/
def listInfixOf : List Char → List Char → Bool
  | n, [] => n.isEmpty
  | n, h :: t => n.isPrefixOf (h :: t) || listInfixOf n t

/-- Python `str.lower`, character by character. -/
def strLower (s : String) : String := String.mk (s.data.map Char.toLower)

/-- Python `needle in hay` substring test. -/
def strIn (needle hay : String) : Bool :=
  listInfixOf needle.data hay.data

/-- Embedding of `CONDITION_INFO` (weather.py, lines 446-454): normalized
name, keyword list, emoji, in source (= Python dict insertion) order. -/
def CONDITION_INFO : List (String × (List String × String)) :=
  [("Clear", (["clear", "sunny"], "☀️")),
   ("Partly Cloudy", (["partly"], "⛅")),
   ("Cloudy", (["cloud", "overcast"], "☁️")),
   ("Rainy", (["rain", "drizzle"], "🌧️")),
   ("Snowy", (["snow", "sleet"], "❄️")),
   ("Foggy", (["fog", "mist"], "🌫️")),
   ("Stormy", (["storm", "thunder"], "⛈️"))]

/-- Embedding of `normalize_condition` (weather.py, lines 457-463): lower-case
the input, return the first category one of whose keywords occurs in it,
otherwise return the input unchanged. -/
def normalize_condition (condition : String) : String :=
  let lower := strLower condition
  match CONDITION_INFO.find? (fun e => e.2.1.any (fun kw => strIn kw lower)) with
  | some e => e.1
  | none => condition

/-! ### Aggregation (weather.py, lines 378-419) -/
/-- One step of `condition_counts[normalized] = condition_counts.get(normalized, 0) + 1`
on an insertion-ordered association list: bump an existing key in place,
append a new key at the end. -/
def tallyInsert (counts : List (String × ℕ)) (k : String) : List (String × ℕ) :=
  if counts.any (fun p => p.1 == k) then
    counts.map (fun p => if p.1 == k then (p.1, p.2 + 1) else p)
  else counts ++ [(k, 1)]

/-- The tally loop of `aggregate_weather` (weather.py, lines 408-412): walk the
valid observations in order, skip empty normalized conditions, count the rest. -/
def conditionCounts (valid : List WeatherData) : List (String × ℕ) :=
  valid.foldl (fun counts d =>
    let normalized := normalize_condition d.condition
    if normalized.isEmpty then counts else tallyInsert counts normalized) []

/-- Embedding of `max(condition_counts, key=condition_counts.get)`: iterate in
insertion order, replace the current best only on a strictly greater count,
so the first key reaching the maximal count wins. -/
def pymax (counts : List (String × ℕ)) : Option String :=
  match counts with
  | [] => none
  | p :: rest => some ((rest.foldl (fun best q => if q.2 > best.2 then q else best) p).1)

/-- Embedding of `aggregate_weather` (weather.py, lines 378-419). -/
def aggregate_weather (data : List WeatherData) : Summary :=
  if data.isEmpty then
    { avg_temp := 0, avg_hum := 0, hum_count := 0, condition := "No data", valid_count := 0 }
  else
    let valid := data.filter (fun d => d.error.isNone)
    if valid.isEmpty then
      { avg_temp := 0, avg_hum := 0, hum_count := 0, condition := "No valid data", valid_count := 0 }
    else
      let humidities := valid.filterMap (fun d => d.humidity)
      { avg_temp := ((valid.map (fun d => d.temperature)).sum) / (valid.length : ℚ)
        avg_hum := if humidities.isEmpty then 0 else humidities.sum / (humidities.length : ℚ)
        hum_count := if humidities.isEmpty then 0 else humidities.length
        condition := match pymax (conditionCounts valid) with
          | some c => c
          | none => "Unknown"
        valid_count := valid.length }

/-- The valid partition `[d for d in data if d.error is None]`. -/
def validObs (data : List WeatherData) : List WeatherData :=
  data.filter (fun d => d.error.isNone)

/-- The non-empty normalized conditions of the valid observations, in their
original list order: exactly the keys tallied by `aggregate_weather`. -/
def normsOf (data : List WeatherData) : List String :=
  ((validObs data).map (fun d => normalize_condition d.condition)).filter
    (fun s => !s.isEmpty)

/-- The non-null humidities of the valid observations, in order:
`[d.humidity for d in valid if d.humidity is not None]`. -/
def humsOf (data : List WeatherData) : List ℚ :=
  (validObs data).filterMap (fun d => d.humidity)

/-! ### Concrete example observation lists (from the spec's testable properties) -/
def exHum : List WeatherData :=
  [{ source := "a", temperature := 20, humidity := some 50 },
   { source := "b", temperature := 10 }]

def exMixed : List WeatherData :=
  [{ source := "a", temperature := 20, humidity := some 50, condition := "Clear" },
   { source := "b", error := some "timeout" }]

def exAllErr : List WeatherData :=
  [{ source := "b", error := some "timeout" }]

/-! ### Claim about the consensus condition (stable max over an
insertion-ordered tally) -/
/-- The tally loop applied directly to the list of non-empty normalized
condition strings. -/
def tallyList (ks : List String) : List (String × ℕ) :=
  ks.foldl tallyInsert []

/-- Invariant tying a tally association list to the list of strings already
processed: counts are occurrence counts, keys are exactly the strings seen,
keys are distinct, and keys appear in first-occurrence order. -/
def TallyInv (processed : List String) (acc : List (String × ℕ)) : Prop :=
  (∀ p ∈ acc, p.2 = processed.count p.1) ∧
  (∀ k : String, k ∈ processed ↔ ∃ p ∈ acc, p.1 = k) ∧
  (acc.map Prod.fst).Nodup ∧
  acc.Pairwise (fun p q => List.indexOf p.1 processed < List.indexOf q.1 processed)

def exConsensus : List WeatherData :=
  [{ source := "a", condition := "Clear" },
   { source := "b", condition := "Sunny" },
   { source := "c", condition := "Cloudy" }]

/-! ### JSON payloads and Python dynamic access (for the Source Adapters,
weather.py lines 68-333)

A provider response body is an arbitrary JSON value. Python attribute access
and subscripting on such values can raise; those raises are modelled with
`Except PyErr`. An adapter that lets an exception escape its `fetch` (which
the real code does on some payload shapes) is modelled as `.error pe`. -/
inductive Json where
  | null : Json
  | bool (b : Bool) : Json
  | num (q : ℚ) : Json
  | str (s : String) : Json
  | arr (xs : List Json) : Json
  | obj (kvs : List (String × Json)) : Json

/-- The Python exception classes that the adapter code can raise or catch. -/
inductive PyErr where
  | attributeError
  | keyError
  | indexError
  | typeError
  deriving DecidableEq, Repr

/-- Python `e.__class__.__name__`. -/
def pyErrName : PyErr → String
  | .attributeError => "AttributeError"
  | .keyError => "KeyError"
  | .indexError => "IndexError"
  | .typeError => "TypeError"

/-- Python truthiness of a JSON value. -/
def pyTruthy : Json → Bool
  | .null => false
  | .bool b => b
  | .num q => q != 0
  | .str s => s != ""
  | .arr xs => !xs.isEmpty
  | .obj kvs => !kvs.isEmpty

def isArr : Json → Bool
  | .arr _ => true
  | _ => false

def isObj : Json → Bool
  | .obj _ => true
  | _ => false

/-- Python `value.get(key, default)`: only dicts have `.get`; any other value
raises `AttributeError`. -/
def dictGet (j : Json) (key : String) (default : Json) : Except PyErr Json :=
  match j with
  | .obj kvs => .ok ((kvs.lookup key).getD default)
  | _ => .error .attributeError

/-- Python `value[key]` with a string key: `KeyError` on a missing dict key,
`TypeError` on every non-dict value. -/
def pySubscript (j : Json) (key : String) : Except PyErr Json :=
  match j with
  | .obj kvs =>
    match kvs.lookup key with
    | some v => .ok v
    | none => .error .keyError
  | _ => .error .typeError

/-- Python `value[i]` with a non-negative integer index: lists and strings
index positionally (`IndexError` out of range), dicts with string keys raise
`KeyError`, everything else `TypeError`. -/
def pyIndex (j : Json) (i : ℕ) : Except PyErr Json :=
  match j with
  | .arr xs =>
    match xs.get? i with
    | some v => .ok v
    | none => .error .indexError
  | .str s =>
    match s.data.get? i with
    | some c => .ok (.str (String.mk [c]))
    | none => .error .indexError
  | .obj _ => .error .keyError
  | _ => .error .typeError

/-- Decimal-literal subset of Python `float(str)`: optional sign, digits with
an optional fractional part (exponent and inf/nan spellings are treated as
unparseable and fall back to the default, which no claim depends on). -/
def digitsVal (cs : List Char) : ℕ :=
  cs.foldl (fun n c => n * 10 + (c.toNat - 48)) 0

def parseFloatQ (s : String) : Option ℚ :=
  let go : List Char → ℚ → Option ℚ := fun cs sign =>
    let intPart := cs.takeWhile Char.isDigit
    let after := cs.drop intPart.length
    match after with
    | [] => if intPart.isEmpty then none else some (sign * (digitsVal intPart : ℚ))
    | '.' :: frac =>
      if frac.all Char.isDigit && !(intPart.isEmpty && frac.isEmpty) then
        some (sign * ((digitsVal intPart : ℚ) +
          (digitsVal frac : ℚ) / (10 : ℚ) ^ frac.length))
      else none
    | _ => none
  match s.data with
  | '-' :: r => go r (-1)
  | '+' :: r => go r 1
  | r => go r 1

/-- Embedding of `safe_float` (weather.py, lines 68-75): `None` and
unconvertible values become the default, numbers pass through, booleans
coerce as 1/0, numeric strings parse. -/
def safe_float (value : Json) (default : ℚ := 0) : ℚ :=
  match value with
  | .null => default
  | .num q => q
  | .bool b => if b then 1 else 0
  | .str s => (parseFloatQ s).getD default
  | .arr _ => default
  | .obj _ => default

/-- What the network returns for one HTTP request: the exceptions the `try`
in `http_get_json` can see, or a response with a status code and a body
(`none` standing for a body that is not valid JSON). -/
inductive HttpResult where
  | timeout
  | clientError (name : String)
  | otherExn (name : String)
  | resp (status : ℕ) (body : Option Json)

/-- Embedding of `http_get_json` (weather.py, lines 78-97), collapsing the
`(data, err)` pair into `Except`: exactly one side is populated. -/
def http_get_json : HttpResult → Except String Json
  | .timeout => .error "timeout"
  | .clientError n => .error ("network error: " ++ n)
  | .otherExn n => .error ("unexpected: " ++ n)
  | .resp status body =>
    if status ≠ 200 then .error ("HTTP " ++ toString status)
    else
      match body with
      | none => .error "invalid JSON"
      | some j => .ok j

/-- Embedding of `geocode_city` (weather.py, lines 100-116). The inner
`Except String` is the `(coords, err)` pair; the outer `Except PyErr` records
an escaped exception (the function has no handler of its own). -/
def geocode_city (r : HttpResult) : Except PyErr (Except String (Json × Json)) :=
  match http_get_json r with
  | .error e => .ok (.error e)
  | .ok data =>
    if !(pyTruthy data) then .ok (.error "city not found")
    else do
      let results ← dictGet data "results" Json.null
      if !(pyTruthy results) then .ok (.error "city not found")
      else do
        let resultsJ ← pySubscript data "results"
        let r0 ← pyIndex resultsJ 0
        let lat ← pySubscript r0 "latitude"
        let lon ← pySubscript r0 "longitude"
        .ok (.ok (lat, lon))

/-- Embedding of `get_coordinates` (weather.py, lines 119-125): a cache hit
short-circuits, otherwise geocode. -/
def get_coordinates (cache : Option (Json × Json)) (r : HttpResult) :
    Except PyErr (Except String (Json × Json)) :=
  match cache with
  | some c => .ok (.ok c)
  | none => geocode_city r

/-- The string content stored into the `condition: str` field. The dataclass
declares the field as `str`; when a provider sends a non-string here the
Python code would store the raw object, which no later step of the claims
reads, so only the string case carries content. -/
def condStr : Json → String
  | .str s => s
  | _ => ""

/-- Embedding of `_map_wmo_code` (weather.py, lines 426-442) applied to a
dynamic value: `code == 0` never raises, but the chained `<=` comparisons
raise `TypeError` on non-numeric values (`True`/`False` compare as 1/0). -/
def map_wmo_code : Json → Except PyErr String
  | .num q => .ok (
      if q = 0 then "Clear"
      else if q ≤ 3 then "Partly Cloudy"
      else if q ≤ 48 then "Foggy"
      else if q ≤ 67 then "Rainy"
      else if q ≤ 77 then "Snowy"
      else if q ≤ 86 then "Snowy"
      else if q ≤ 94 then "Rainy"
      else "Stormy")
  | .bool b => .ok (if b then "Partly Cloudy" else "Clear")
  | _ => .error .typeError

/-- Embedding of `OpenMeteoSource.fetch` (weather.py, lines 150-175): `geo`
and `wx` are what the network answers to the geocoding and forecast requests,
`cache` is the orchestrator's pre-resolved coordinate entry for the city. -/
def openMeteoFetch (geo wx : HttpResult) (cache : Option (Json × Json)) :
    Except PyErr WeatherData := do
  match ← get_coordinates cache geo with
  | .error err => return { source := "Open-Meteo", error := some err }
  | .ok _coords =>
    match http_get_json wx with
    | .error err => return { source := "Open-Meteo", error := some err }
    | .ok data => do
      let current ← dictGet data "current" (Json.obj [])
      let t ← dictGet current "temperature_2m" Json.null
      let h ← dictGet current "relative_humidity_2m" Json.null
      let wc ← dictGet current "weather_code" (Json.num 0)
      let cond ← map_wmo_code wc
      return { source := "Open-Meteo", temperature := safe_float t,
               humidity := some (safe_float h), condition := cond }

/-- The `try` body of `WttrinSource.fetch` (weather.py, lines 192-208),
run on a successfully decoded response body. -/
def wttrinBody (data : Json) : Except PyErr WeatherData := do
  let conditions ← dictGet data "current_condition" (Json.arr [])
  if !(pyTruthy conditions) || !(isArr conditions) then
    return { source := "wttr.in", error := some "invalid response format" }
  else do
    let current ← pyIndex conditions 0
    if !(pyTruthy current) || !(isObj current) then
      return { source := "wttr.in", error := some "invalid response format" }
    else do
      let t ← dictGet current "temp_C" Json.null
      let h ← dictGet current "humidity" Json.null
      let desc ← dictGet current "weatherDesc" (Json.arr [])
      if pyTruthy desc && isArr desc then do
        let d0 ← pyIndex desc 0
        if pyTruthy d0 then do
          let v ← dictGet d0 "value" (Json.str "")
          return { source := "wttr.in", temperature := safe_float t,
                   humidity := some (safe_float h), condition := condStr v }
        else
          return { source := "wttr.in", temperature := safe_float t,
                   humidity := some (safe_float h) }
      else
        return { source := "wttr.in", temperature := safe_float t,
                 humidity := some (safe_float h) }

/-- Embedding of `WttrinSource.fetch` (weather.py, lines 183-212): the
`except (KeyError, IndexError, TypeError)` handler turns exactly those three
classes into a `"parse error: <name>"` observation; `AttributeError` (what
`.get` on a non-dict actually raises) is not in the tuple and escapes. -/
def wttrinFetch (wx : HttpResult) : Except PyErr WeatherData :=
  match http_get_json wx with
  | .error e => .ok { source := "wttr.in", error := some e }
  | .ok data =>
    match wttrinBody data with
    | .ok w => .ok w
    | .error pe =>
      if pe = .keyError ∨ pe = .indexError ∨ pe = .typeError then
        .ok { source := "wttr.in", error := some ("parse error: " ++ pyErrName pe) }
      else .error pe

/-- Embedding of `WeatherAPISource.fetch` (weather.py, lines 220-237); the
empty string stands for a missing credential (`if not self._api_key`). -/
def weatherAPIFetch (apiKey : String) (wx : HttpResult) : Except PyErr WeatherData := do
  if apiKey = "" then
    return { source := "WeatherAPI.com", error := some "API key required" }
  else
    match http_get_json wx with
    | .error e => return { source := "WeatherAPI.com", error := some e }
    | .ok data => do
      let current ← dictGet data "current" (Json.obj [])
      let t ← dictGet current "temp_c" Json.null
      let h ← dictGet current "humidity" Json.null
      let condObj ← dictGet current "condition" (Json.obj [])
      let txt ← dictGet condObj "text" (Json.str "")
      return { source := "WeatherAPI.com", temperature := safe_float t,
               humidity := some (safe_float h), condition := condStr txt }

/-- Embedding of `WeatherstackSource.fetch` (weather.py, lines 245-267). -/
def weatherstackFetch (apiKey : String) (wx : HttpResult) : Except PyErr WeatherData := do
  if apiKey = "" then
    return { source := "Weatherstack", error := some "API key required" }
  else
    match http_get_json wx with
    | .error e => return { source := "Weatherstack", error := some e }
    | .ok data => do
      let current ← dictGet data "current" (Json.obj [])
      let t ← dictGet current "temperature" Json.null
      let h ← dictGet current "humidity" Json.null
      let descriptions ← dictGet current "weather_descriptions" (Json.arr [])
      if pyTruthy descriptions then do
        let d0 ← pyIndex descriptions 0
        return { source := "Weatherstack", temperature := safe_float t,
                 humidity := some (safe_float h), condition := condStr d0 }
      else
        return { source := "Weatherstack", temperature := safe_float t,
                 humidity := some (safe_float h) }

/-- Embedding of `MeteosourceSource.fetch` (weather.py, lines 275-301): the
only adapter that leaves `humidity` as `None` when the provider omits it. -/
def meteosourceFetch (apiKey : String) (wx : HttpResult) : Except PyErr WeatherData := do
  if apiKey = "" then
    return { source := "Meteosource", error := some "API key required" }
  else
    match http_get_json wx with
    | .error e => return { source := "Meteosource", error := some e }
    | .ok data => do
      let current ← dictGet data "current" (Json.obj [])
      let t ← dictGet current "temperature" Json.null
      let s ← dictGet current "summary" (Json.str "")
      let h ← dictGet current "humidity" Json.null
      return { source := "Meteosource", temperature := safe_float t,
               condition := condStr s,
               humidity := match h with
                 | Json.null => none
                 | v => some (safe_float v) }

/-- Embedding of `PirateWeatherSource.fetch` (weather.py, lines 309-333):
raw humidity in 0-1 is scaled to 0-100 only when strictly positive,
otherwise forced to `0.0`. -/
def pirateWeatherFetch (apiKey : String) (geo wx : HttpResult)
    (cache : Option (Json × Json)) : Except PyErr WeatherData := do
  if apiKey = "" then
    return { source := "Pirate Weather", error := some "API key required" }
  else
    match ← get_coordinates cache geo with
    | .error err => return { source := "Pirate Weather", error := some err }
    | .ok _coords =>
      match http_get_json wx with
      | .error e => return { source := "Pirate Weather", error := some e }
      | .ok data => do
        let currently ← dictGet data "currently" (Json.obj [])
        let t ← dictGet currently "temperature" Json.null
        let hraw0 ← dictGet currently "humidity" Json.null
        let hraw := safe_float hraw0
        let s ← dictGet currently "summary" (Json.str "")
        return { source := "Pirate Weather", temperature := safe_float t,
                 humidity := some (if hraw > 0 then hraw * 100 else 0),
                 condition := condStr s }

/-- The error string an adapter surfaced, if its `fetch` returned an
observation at all (an escaped exception returns nothing). -/
def fetchErr : Except PyErr WeatherData → Option String
  | .ok w => w.error
  | .error _ => none

/-! ### Claim about the error taxonomy -/
/-- The error-string shapes the code can actually put into
`WeatherData.error`. -/
def errShapeCode (e : String) : Prop :=
  e = "timeout" ∨ e = "invalid JSON" ∨ e = "city not found" ∨ e = "API key required" ∨
  e = "invalid response format" ∨ (∃ d, e = "network error: " ++ d) ∨
  (∃ d, e = "unexpected: " ++ d) ∨ (∃ n : ℕ, e = "HTTP " ++ toString n) ∨
  (∃ d, e = "parse error: " ++ d)

/-- The specification's error taxonomy (spec section 6), written from the
spec's words so the code's actual error strings can be compared against it. -/
def errShapeSpec (e : String) : Prop :=
  e = "timeout" ∨ (∃ n : ℕ, e = "HTTP " ++ toString n) ∨ e = "network error" ∨
  (∃ d, e = "network error: " ++ d) ∨ e = "invalid JSON" ∨ e = "city not found" ∨
  e = "API key required" ∨ (∃ d, e = "data parsing error: " ++ d) ∨
  (∃ d, e = "geocoding request failed: " ++ d)

/-- The observation Open-Meteo produces when the provider omits humidity. -/
def omNoHum : WeatherData :=
  { source := "Open-Meteo", temperature := 20, humidity := some 0, condition := "Clear" }

/-! ### Fetch orchestration (weather.py, lines 340-371)

One adapter is a name plus a deterministic fetch behaviour (city and shared
geocode-cache entry in, observation or escaped exception out); the claim's
"adapter behaviour fixed" premise is what makes a pure function the right
model. `asyncio.gather` returns its results in the order of the task list it
was given, so both the concurrent and the sequential loop produce one
observation per adapter in adapter order; the per-call wall-clock durations
are the only nondeterministic part, and each mode receives them here as an
explicit timing oracle (one duration per adapter index). -/
structure Adapter where
  name : String
  fetch : String → Option (Json × Json) → Except PyErr WeatherData

/-- The orchestrators' shared preamble (weather.py, lines 347-351 and
363-367): geocode once, and populate the cache only on success; a raise in
`geocode_city` escapes the whole batch. -/
def buildCacheE (geo : HttpResult) : Except PyErr (Option (Json × Json)) :=
  match geocode_city geo with
  | .error pe => .error pe
  | .ok (.ok c) => .ok (some c)
  | .ok (.error _) => .ok none

/-- The common fan-out loop: `TimedWeatherSource` wraps each adapter, stamping
`duration_ms` (from the timing oracle `t`) onto each returned observation;
results are collected in adapter order and the first escaped exception
aborts the batch. -/
def runTimed (t : ℕ → ℚ) (city : String) (cache : Option (Json × Json)) :
    List Adapter → ℕ → Except PyErr (List WeatherData)
  | [], _ => .ok []
  | s :: rest, i =>
    match s.fetch city cache with
    | .error pe => .error pe
    | .ok w =>
      match runTimed t city cache rest (i + 1) with
      | .error pe => .error pe
      | .ok ws => .ok ({ w with duration_ms := some (t i) } :: ws)

/-- Embedding of `fetch_weather_concurrently` (weather.py, lines 340-357). -/
def fetch_weather_concurrently (t : ℕ → ℚ) (geo : HttpResult) (city : String)
    (sources : List Adapter) : Except PyErr (List WeatherData) :=
  match buildCacheE geo with
  | .error pe => .error pe
  | .ok cache => runTimed t city cache sources 0

/-- Embedding of `fetch_weather_sequentially` (weather.py, lines 360-371). -/
def fetch_weather_sequentially (t : ℕ → ℚ) (geo : HttpResult) (city : String)
    (sources : List Adapter) : Except PyErr (List WeatherData) :=
  match buildCacheE geo with
  | .error pe => .error pe
  | .ok cache => runTimed t city cache sources 0

/-- An observation with the timing stripped: everything the two fetch modes
must agree on. -/
def stripDur (w : WeatherData) : WeatherData :=
  { w with duration_ms := none }

/-! ### Theorems -/

/-! ### Unfolding lemmas for the aggregator -/
lemma validObs_ne_nil_data (data : List WeatherData) (h : validObs data ≠ []) :
    data ≠ [] := by
  intro hd
  subst hd
  exact h rfl

/-- The populated branch of `aggregate_weather`, reached whenever at least one
observation has no error. -/
lemma aggregate_weather_populated (data : List WeatherData) (h : validObs data ≠ []) :
    aggregate_weather data =
      { avg_temp := ((validObs data).map (fun d => d.temperature)).sum /
          ((validObs data).length : ℚ),
        avg_hum := if (humsOf data).isEmpty then 0
          else (humsOf data).sum / ((humsOf data).length : ℚ),
        hum_count := if (humsOf data).isEmpty then 0 else (humsOf data).length,
        condition := match pymax (conditionCounts (validObs data)) with
          | some c => c
          | none => "Unknown",
        valid_count := (validObs data).length } := by
  have hd : data ≠ [] := validObs_ne_nil_data data h
  unfold aggregate_weather
  rw [if_neg (by simpa [List.isEmpty_iff] using hd)]
  rw [if_neg (by simpa [List.isEmpty_iff, validObs] using h)]
  rfl

/-! ### Claims about the aggregator's numeric fields -/
/-- C2: for every observation list with at least one valid (error-free)
observation, `avg_hum` is the arithmetic mean of humidity over exactly the
valid observations whose humidity is non-null and `hum_count` is the size of
that subset; when the subset is empty both are zero, so null-humidity
observations are never treated as zero samples. -/
theorem aggregate_humidity_spec (data : List WeatherData) (h : validObs data ≠ []) :
    (humsOf data ≠ [] →
      (aggregate_weather data).avg_hum = (humsOf data).sum / ((humsOf data).length : ℚ) ∧
      (aggregate_weather data).hum_count = (humsOf data).length) ∧
    (humsOf data = [] →
      (aggregate_weather data).avg_hum = 0 ∧ (aggregate_weather data).hum_count = 0) := by
  rw [aggregate_weather_populated data h]
  constructor
  · intro hne
    simp [List.isEmpty_iff, hne]
  · intro he
    simp [List.isEmpty_iff, he]

theorem aggregate_humidity_spec_witness :
    validObs exHum ≠ [] ∧
    ((humsOf exHum ≠ [] →
      (aggregate_weather exHum).avg_hum = (humsOf exHum).sum / ((humsOf exHum).length : ℚ) ∧
      (aggregate_weather exHum).hum_count = (humsOf exHum).length) ∧
    (humsOf exHum = [] →
      (aggregate_weather exHum).avg_hum = 0 ∧ (aggregate_weather exHum).hum_count = 0)) :=
  ⟨by decide, aggregate_humidity_spec exHum (by decide)⟩

/-- C3: for every observation list with at least one valid observation,
`avg_temp` is the arithmetic mean of `temperature` over all valid observations
(zero-coerced defaults included), invalid observations feed neither mean, and
the valid subset never exceeds the full list. -/
theorem aggregate_temperature_spec (data : List WeatherData) (h : validObs data ≠ []) :
    (aggregate_weather data).avg_temp =
      ((validObs data).map (fun d => d.temperature)).sum / ((validObs data).length : ℚ) ∧
    (aggregate_weather data).valid_count = (validObs data).length ∧
    (validObs data).length ≤ data.length := by
  rw [aggregate_weather_populated data h]
  exact ⟨rfl, rfl, List.length_filter_le _ _⟩

theorem aggregate_temperature_spec_witness :
    validObs exMixed ≠ [] ∧
    ((aggregate_weather exMixed).avg_temp =
      ((validObs exMixed).map (fun d => d.temperature)).sum /
        ((validObs exMixed).length : ℚ) ∧
    (aggregate_weather exMixed).valid_count = (validObs exMixed).length ∧
    (validObs exMixed).length ≤ exMixed.length) :=
  ⟨by decide, aggregate_temperature_spec exMixed (by decide)⟩

/-- C4 (corrected): `valid_count` always equals the number of error-free
observations, and `valid_count = 0` forces `avg_temp = 0`; the converse
direction of the claimed equivalence is false (see the counterexample). -/
theorem aggregate_valid_count_spec (data : List WeatherData) :
    (aggregate_weather data).valid_count = (validObs data).length ∧
    ((aggregate_weather data).valid_count = 0 → (aggregate_weather data).avg_temp = 0) := by
  by_cases hd : data = []
  · subst hd
    exact ⟨rfl, fun _ => rfl⟩
  by_cases hv : validObs data = []
  · have hagg : aggregate_weather data =
        { avg_temp := 0, avg_hum := 0, hum_count := 0, condition := "No valid data",
          valid_count := 0 } := by
      unfold aggregate_weather
      rw [if_neg (by simpa [List.isEmpty_iff] using hd)]
      rw [if_pos (by simpa [List.isEmpty_iff, validObs] using hv)]
    rw [hagg, hv]
    exact ⟨rfl, fun _ => rfl⟩
  · rw [aggregate_weather_populated data hv]
    refine ⟨rfl, fun h0 => absurd h0 ?_⟩
    simpa using hv

/-- C4 counterexample: a single valid observation whose temperature is the
coerced default `0.0` yields `avg_temp = 0` with `valid_count = 1`, so
`avg_temp = 0` does not imply `valid_count = 0`. -/
theorem aggregate_valid_count_cex :
    ¬ ((aggregate_weather [{ source := "s" }]).avg_temp = 0 ↔
       (aggregate_weather [{ source := "s" }]).valid_count = 0) := by
  have h1 : (aggregate_weather [{ source := "s" }]).valid_count = 1 := by decide
  have h2 : (aggregate_weather [{ source := "s" }]).avg_temp = 0 := by
    simp [aggregate_weather]
  intro h
  have h3 := h.mp h2
  omega

theorem aggregate_valid_count_spec_witness :
    (aggregate_weather []).valid_count = (validObs []).length ∧
    (aggregate_weather []).avg_temp = 0 :=
  ⟨(aggregate_valid_count_spec []).1, (aggregate_valid_count_spec []).2 rfl⟩

/-- C5: the aggregator degrades through exactly three states — "No data" with
all numeric fields zero on empty input, "No valid data" with all numeric
fields zero when every observation is an error, and a populated summary over
the valid subset otherwise. -/
theorem aggregate_three_states (data : List WeatherData) :
    (data = [] →
      aggregate_weather data =
        { avg_temp := 0, avg_hum := 0, hum_count := 0, condition := "No data",
          valid_count := 0 }) ∧
    (data ≠ [] → validObs data = [] →
      aggregate_weather data =
        { avg_temp := 0, avg_hum := 0, hum_count := 0, condition := "No valid data",
          valid_count := 0 }) ∧
    (validObs data ≠ [] →
      0 < (aggregate_weather data).valid_count ∧
      (aggregate_weather data).valid_count = (validObs data).length ∧
      (aggregate_weather data).avg_temp =
        ((validObs data).map (fun d => d.temperature)).sum /
          ((validObs data).length : ℚ)) := by
  refine ⟨fun hd => ?_, fun hd hv => ?_, fun hv => ?_⟩
  · subst hd
    rfl
  · unfold aggregate_weather
    rw [if_neg (by simpa [List.isEmpty_iff] using hd)]
    rw [if_pos (by simpa [List.isEmpty_iff, validObs] using hv)]
  · rw [aggregate_weather_populated data hv]
    refine ⟨?_, rfl, rfl⟩
    simpa [List.length_pos] using hv

theorem aggregate_three_states_witness :
    aggregate_weather [] =
      { avg_temp := 0, avg_hum := 0, hum_count := 0, condition := "No data",
        valid_count := 0 } ∧
    aggregate_weather exAllErr =
      { avg_temp := 0, avg_hum := 0, hum_count := 0, condition := "No valid data",
        valid_count := 0 } :=
  ⟨(aggregate_three_states []).1 rfl,
   (aggregate_three_states exAllErr).2.1 (by decide) (by decide)⟩

/-! ### Claim about the condition normalizer -/
lemma find_first {α : Type} (p : α → Bool) (l : List α) :
    ∀ (i : ℕ) (hi : i < l.length),
      p (l.get ⟨i, hi⟩) = true →
      (∀ (j : ℕ) (hj : j < l.length), j < i → p (l.get ⟨j, hj⟩) = false) →
      l.find? p = some (l.get ⟨i, hi⟩) := by
  induction l with
  | nil => intro i hi; simp at hi
  | cons a t ih =>
    intro i hi hp hbef
    cases i with
    | zero =>
      rw [List.find?_cons_of_pos _ (by simpa using hp)]
      rfl
    | succ n =>
      have ha : p a = false := hbef 0 (by omega) (by omega)
      rw [List.find?_cons_of_neg _ (by simp [ha])]
      simpa using ih n (by simpa using hi) (by simpa using hp)
        (fun j hj hlt => by simpa using hbef (j + 1) (by omega) (by omega))

/-- C6: `normalize_condition` lower-cases its input and tests the taxonomy in
fixed priority order with the first keyword match winning ("Partly cloudy"
beats "Cloudy"); with no keyword match the input is returned unchanged, and
the empty string maps to itself, not to "Unknown". -/
theorem normalize_condition_spec :
    (∀ s : String,
        (∀ e ∈ CONDITION_INFO, ∀ kw ∈ e.2.1, strIn kw (strLower s) = false) →
        normalize_condition s = s) ∧
    normalize_condition "Partly cloudy" = "Partly Cloudy" ∧
    normalize_condition "" = "" ∧
    (∀ (s : String) (i : ℕ) (hi : i < CONDITION_INFO.length),
        (CONDITION_INFO.get ⟨i, hi⟩).2.1.any (fun kw => strIn kw (strLower s)) = true →
        (∀ (j : ℕ) (hj : j < CONDITION_INFO.length), j < i →
          (CONDITION_INFO.get ⟨j, hj⟩).2.1.any (fun kw => strIn kw (strLower s)) = false) →
        normalize_condition s = (CONDITION_INFO.get ⟨i, hi⟩).1) := by
  refine ⟨fun s hs => ?_, by decide, by decide, fun s i hi hp hbef => ?_⟩
  · have hnone : CONDITION_INFO.find?
        (fun e => e.2.1.any (fun kw => strIn kw (strLower s))) = none := by
      rw [List.find?_eq_none]
      intro e he
      simp only [List.any_eq_true]
      rintro ⟨kw, hkw, hin⟩
      simp [hs e he kw hkw] at hin
    simp only [normalize_condition]
    rw [hnone]
  · simp only [normalize_condition]
    rw [find_first (fun e => e.2.1.any (fun kw => strIn kw (strLower s)))
      CONDITION_INFO i hi hp hbef]

theorem normalize_condition_spec_witness :
    (∀ e ∈ CONDITION_INFO, ∀ kw ∈ e.2.1, strIn kw (strLower "Unknown xyz") = false) ∧
    normalize_condition "Unknown xyz" = "Unknown xyz" :=
  ⟨by decide, normalize_condition_spec.1 "Unknown xyz" (by decide)⟩

lemma conditionCounts_eq_tallyList (l : List WeatherData) :
    conditionCounts l =
      tallyList ((l.map (fun d => normalize_condition d.condition)).filter
        (fun s => !s.isEmpty)) := by
  suffices hgen : ∀ (l : List WeatherData) (acc : List (String × ℕ)),
      l.foldl (fun counts d =>
        let normalized := normalize_condition d.condition
        if normalized.isEmpty then counts else tallyInsert counts normalized) acc =
      ((l.map (fun d => normalize_condition d.condition)).filter
        (fun s => !s.isEmpty)).foldl tallyInsert acc by
    exact hgen l []
  intro l
  induction l with
  | nil => intro acc; rfl
  | cons d t ih =>
    intro acc
    by_cases hd : (normalize_condition d.condition).isEmpty = true
    · simp only [List.foldl_cons, List.map_cons, List.filter_cons, hd]
      simpa [hd] using ih acc
    · have hd' : (normalize_condition d.condition).isEmpty = false :=
        Bool.eq_false_iff.2 hd
      simp only [List.foldl_cons, List.map_cons, List.filter_cons, hd']
      simpa [hd'] using ih (tallyInsert acc (normalize_condition d.condition))

lemma tallyInsert_inv (processed : List String) (acc : List (String × ℕ)) (k : String)
    (h : TallyInv processed acc) : TallyInv (processed ++ [k]) (tallyInsert acc k) := by
  obtain ⟨hcount, hmemiff, hnodup, horder⟩ := h
  have hkeys_sub : ∀ p ∈ acc, p.1 ∈ processed := fun p hp =>
    (hmemiff p.1).2 ⟨p, hp, rfl⟩
  by_cases hk : acc.any (fun p => p.1 == k) = true
  · -- existing key: counts are bumped in place, keys unchanged
    obtain ⟨q, hq, hqk⟩ := List.any_eq_true.1 hk
    have hqk' : q.1 = k := by simpa using hqk
    unfold tallyInsert
    rw [if_pos hk]
    have hfst : ∀ p : String × ℕ,
        (if p.1 == k then (p.1, p.2 + 1) else p).1 = p.1 := by
      intro p
      by_cases hpk : p.1 == k
      · simp [hpk]
      · simp [hpk]
    refine ⟨?_, ?_, ?_, ?_⟩
    · intro p' hp'
      obtain ⟨p, hp, rfl⟩ := List.mem_map.1 hp'
      by_cases hpk : p.1 = k
      · have : (p.1 == k) = true := by simpa using hpk
        simp only [this, if_pos]
        simp [List.count_append, hpk, hcount p hp]
      · have : (p.1 == k) = false := by simpa using hpk
        simp only [this]
        simp [List.count_append, hpk, hcount p hp]
    · intro k'
      constructor
      · intro hk'
        rcases List.mem_append.1 hk' with hk' | hk'
        · obtain ⟨p, hp, hpk⟩ := (hmemiff k').1 hk'
          exact ⟨_, List.mem_map_of_mem _ hp, by rw [hfst]; exact hpk⟩
        · have : k' = k := by simpa using hk'
          subst this
          exact ⟨_, List.mem_map_of_mem _ hq, by rw [hfst]; exact hqk'⟩
      · rintro ⟨p', hp', rfl⟩
        obtain ⟨p, hp, rfl⟩ := List.mem_map.1 hp'
        rw [hfst]
        exact List.mem_append_left _ (hkeys_sub p hp)
    · rw [List.map_map]
      have : (Prod.fst ∘ fun p : String × ℕ =>
          if p.1 == k then (p.1, p.2 + 1) else p) = Prod.fst := by
        funext p
        exact hfst p
      rw [this]
      exact hnodup
    · rw [List.pairwise_map]
      refine horder.imp_of_mem ?_
      intro p q hp hq hpq
      rw [hfst, hfst]
      rw [List.indexOf_append_of_mem (hkeys_sub p hp),
        List.indexOf_append_of_mem (hkeys_sub q hq)]
      exact hpq
  · -- new key: appended at the end of both the tally and the processed list
    have hknot : ∀ p ∈ acc, p.1 ≠ k := by
      intro p hp hpk
      exact hk (List.any_eq_true.2 ⟨p, hp, by simpa using hpk⟩)
    have hkproc : k ∉ processed := by
      intro hmem
      obtain ⟨p, hp, hpk⟩ := (hmemiff k).1 hmem
      exact hknot p hp hpk
    unfold tallyInsert
    rw [if_neg hk]
    refine ⟨?_, ?_, ?_, ?_⟩
    · intro p hp
      rcases List.mem_append.1 hp with hp | hp
      · have hne : p.1 ≠ k := hknot p hp
        simp [List.count_append, hne, hcount p hp]
      · have : p = (k, 1) := by simpa using hp
        subst this
        simp [List.count_append, List.count_eq_zero.2 hkproc]
    · intro k'
      constructor
      · intro hk'
        rcases List.mem_append.1 hk' with hk' | hk'
        · obtain ⟨p, hp, hpk⟩ := (hmemiff k').1 hk'
          exact ⟨p, List.mem_append_left _ hp, hpk⟩
        · have hk'k : k' = k := by simpa using hk'
          exact ⟨(k, 1), List.mem_append_right _ (by simp), hk'k.symm⟩
      · rintro ⟨p, hp, rfl⟩
        rcases List.mem_append.1 hp with hp | hp
        · exact List.mem_append_left _ (hkeys_sub p hp)
        · have : p = (k, 1) := by simpa using hp
          subst this
          simp
    · rw [List.map_append]
      refine hnodup.append (by simp) ?_
      intro a ha hb
      have : a = k := by simpa using hb
      subst this
      obtain ⟨p, hp, hpk⟩ := List.mem_map.1 ha
      exact hknot p hp hpk
    · rw [List.pairwise_append]
      refine ⟨horder.imp_of_mem ?_, by simp, ?_⟩
      · intro p q hp hq hpq
        rw [List.indexOf_append_of_mem (hkeys_sub p hp),
          List.indexOf_append_of_mem (hkeys_sub q hq)]
        exact hpq
      · intro p hp q hq
        have : q = (k, 1) := by simpa using hq
        subst this
        rw [List.indexOf_append_of_mem (hkeys_sub p hp),
          List.indexOf_append_of_not_mem hkproc]
        simp only [List.indexOf_cons_self]
        have := List.indexOf_lt_length.2 (hkeys_sub p hp)
        omega

lemma tallyList_inv (rest : List String) :
    ∀ (processed : List String) (acc : List (String × ℕ)),
      TallyInv processed acc → TallyInv (processed ++ rest) (rest.foldl tallyInsert acc) := by
  induction rest with
  | nil =>
    intro processed acc h
    simpa using h
  | cons k rest ih =>
    intro processed acc h
    have h' := tallyInsert_inv processed acc k h
    have hr := ih (processed ++ [k]) (tallyInsert acc k) h'
    simpa [List.append_assoc] using hr

lemma tallyInv_nil : TallyInv [] [] := by
  refine ⟨?_, ?_, ?_, ?_⟩ <;> simp

lemma tallyList_spec (ks : List String) : TallyInv ks (tallyList ks) := by
  have := tallyList_inv ks [] [] tallyInv_nil
  simpa [tallyList] using this

lemma foldl_max_spec (l : List (String × ℕ)) :
    ∀ init : String × ℕ,
      (l.foldl (fun best q => if q.2 > best.2 then q else best) init = init ∧
        ∀ p ∈ l, p.2 ≤ init.2) ∨
      (∃ (i : ℕ) (hi : i < l.length),
        l.foldl (fun best q => if q.2 > best.2 then q else best) init = l.get ⟨i, hi⟩ ∧
        init.2 < (l.get ⟨i, hi⟩).2 ∧
        (∀ p ∈ l, p.2 ≤ (l.get ⟨i, hi⟩).2) ∧
        ∀ (j : ℕ) (hj : j < l.length), j < i → (l.get ⟨j, hj⟩).2 < (l.get ⟨i, hi⟩).2) := by
  induction l with
  | nil =>
    intro init
    left
    exact ⟨rfl, by simp⟩
  | cons p t ih =>
    intro init
    rw [List.foldl_cons]
    by_cases hp : p.2 > init.2
    · rw [if_pos hp]
      right
      rcases ih p with ⟨heq, hbound⟩ | ⟨i, hi, heq, hlt, hbound, hbef⟩
      · refine ⟨0, Nat.succ_pos _, heq, hp, ?_, ?_⟩
        · intro q hq
          show q.2 ≤ p.2
          rcases List.mem_cons.1 hq with h | h
          · rw [h]
          · exact hbound q h
        · intro j hj hj0
          omega
      · refine ⟨i + 1, Nat.succ_lt_succ hi, heq, ?_, ?_, ?_⟩
        · show init.2 < (t.get ⟨i, hi⟩).2
          omega
        · intro q hq
          show q.2 ≤ (t.get ⟨i, hi⟩).2
          rcases List.mem_cons.1 hq with h | h
          · rw [h]; omega
          · exact hbound q h
        · intro j hj hji
          cases j with
          | zero =>
            show p.2 < (t.get ⟨i, hi⟩).2
            omega
          | succ m =>
            exact hbef m (Nat.lt_of_succ_lt_succ hj) (Nat.lt_of_succ_lt_succ hji)
    · rw [if_neg hp]
      rcases ih init with ⟨heq, hbound⟩ | ⟨i, hi, heq, hlt, hbound, hbef⟩
      · left
        refine ⟨heq, ?_⟩
        intro q hq
        rcases List.mem_cons.1 hq with h | h
        · rw [h]; omega
        · exact hbound q h
      · right
        refine ⟨i + 1, Nat.succ_lt_succ hi, heq, hlt, ?_, ?_⟩
        · intro q hq
          show q.2 ≤ (t.get ⟨i, hi⟩).2
          rcases List.mem_cons.1 hq with h | h
          · rw [h]; omega
          · exact hbound q h
        · intro j hj hji
          cases j with
          | zero =>
            show p.2 < (t.get ⟨i, hi⟩).2
            omega
          | succ m =>
            exact hbef m (Nat.lt_of_succ_lt_succ hj) (Nat.lt_of_succ_lt_succ hji)

lemma pymax_spec (counts : List (String × ℕ)) (h : counts ≠ []) :
    ∃ (i : ℕ) (hi : i < counts.length),
      pymax counts = some (counts.get ⟨i, hi⟩).1 ∧
      (∀ p ∈ counts, p.2 ≤ (counts.get ⟨i, hi⟩).2) ∧
      ∀ (j : ℕ) (hj : j < counts.length), j < i →
        (counts.get ⟨j, hj⟩).2 < (counts.get ⟨i, hi⟩).2 := by
  match counts with
  | [] => exact absurd rfl h
  | p :: rest =>
    rcases foldl_max_spec rest p with ⟨heq, hbound⟩ | ⟨i, hi, heq, hlt, hbound, hbef⟩
    · refine ⟨0, Nat.succ_pos _, ?_, ?_, ?_⟩
      · show pymax (p :: rest) = some p.1
        simp [pymax, heq]
      · intro q hq
        show q.2 ≤ p.2
        rcases List.mem_cons.1 hq with hqp | hq
        · rw [hqp]
        · exact hbound q hq
      · intro j hj hj0
        omega
    · refine ⟨i + 1, Nat.succ_lt_succ hi, ?_, ?_, ?_⟩
      · show pymax (p :: rest) = some (rest.get ⟨i, hi⟩).1
        simp [pymax, heq]
      · intro q hq
        show q.2 ≤ (rest.get ⟨i, hi⟩).2
        rcases List.mem_cons.1 hq with hqp | hq
        · rw [hqp]; omega
        · exact hbound q hq
      · intro j hj hji
        cases j with
        | zero =>
          show p.2 < (rest.get ⟨i, hi⟩).2
          omega
        | succ m =>
          exact hbef m (Nat.lt_of_succ_lt_succ hj) (Nat.lt_of_succ_lt_succ hji)

/-- C1: the consensus condition picked by `aggregate_weather` is a normalized
category with the highest tally over the valid observations' non-empty
normalized conditions, and among categories sharing the highest count the
first-encountered one (in original list order) wins. -/
theorem aggregate_consensus_spec (data : List WeatherData) (h : normsOf data ≠ []) :
    (aggregate_weather data).condition ∈ normsOf data ∧
    (∀ k ∈ normsOf data,
      (normsOf data).count k ≤ (normsOf data).count ((aggregate_weather data).condition)) ∧
    (∀ k ∈ normsOf data,
      (normsOf data).count k = (normsOf data).count ((aggregate_weather data).condition) →
      k ≠ (aggregate_weather data).condition →
      List.indexOf ((aggregate_weather data).condition) (normsOf data) <
        List.indexOf k (normsOf data)) := by
  have hvalid : validObs data ≠ [] := by
    intro hv
    apply h
    simp [normsOf, hv]
  have hcounts_eq : conditionCounts (validObs data) = tallyList (normsOf data) := by
    rw [conditionCounts_eq_tallyList]
    rfl
  obtain ⟨hcount, hmemiff, hnodup, horder⟩ := tallyList_spec (normsOf data)
  have hcne : tallyList (normsOf data) ≠ [] := by
    obtain ⟨k0, hk0⟩ := List.exists_mem_of_ne_nil _ h
    obtain ⟨p, hp, _⟩ := (hmemiff k0).1 hk0
    intro hnil
    rw [hnil] at hp
    exact absurd hp (List.not_mem_nil p)
  obtain ⟨i, hi, hpy, hbound, hbef⟩ := pymax_spec (tallyList (normsOf data)) hcne
  have hgeti : (tallyList (normsOf data)).get ⟨i, hi⟩ ∈ tallyList (normsOf data) :=
    List.get_mem _ i hi
  have hic : ((tallyList (normsOf data)).get ⟨i, hi⟩).2 =
      (normsOf data).count ((tallyList (normsOf data)).get ⟨i, hi⟩).1 :=
    hcount _ hgeti
  have hcond : (aggregate_weather data).condition =
      ((tallyList (normsOf data)).get ⟨i, hi⟩).1 := by
    rw [aggregate_weather_populated data hvalid]
    show (match pymax (conditionCounts (validObs data)) with
      | some c => c
      | none => "Unknown") = ((tallyList (normsOf data)).get ⟨i, hi⟩).1
    rw [hcounts_eq, hpy]
  rw [hcond]
  refine ⟨(hmemiff _).2 ⟨_, hgeti, rfl⟩, ?_, ?_⟩
  · intro k hk
    obtain ⟨p, hp, hpk⟩ := (hmemiff k).1 hk
    have h1 : p.2 = (normsOf data).count k := by
      rw [← hpk]
      exact hcount p hp
    have h2 := hbound p hp
    omega
  · intro k hk hkc hne
    obtain ⟨p, hp, hpk⟩ := (hmemiff k).1 hk
    obtain ⟨⟨j, hj⟩, hgetj⟩ := List.mem_iff_get.1 hp
    rcases Nat.lt_trichotomy j i with hji | hji | hij
    · -- an earlier tally entry would have a strictly smaller count
      exfalso
      have hlt := hbef j hj hji
      rw [hgetj] at hlt
      have h1 : p.2 = (normsOf data).count k := by
        rw [← hpk]
        exact hcount p hp
      omega
    · exfalso
      apply hne
      rw [← hpk, ← hgetj]
      subst hji
      rfl
    · have hpair := (List.pairwise_iff_get.1 horder) ⟨i, hi⟩ ⟨j, hj⟩ hij
      rw [hgetj, hpk] at hpair
      exact hpair

theorem aggregate_consensus_spec_witness :
    normsOf exConsensus ≠ [] ∧
    ((aggregate_weather exConsensus).condition ∈ normsOf exConsensus ∧
    (∀ k ∈ normsOf exConsensus,
      (normsOf exConsensus).count k ≤
        (normsOf exConsensus).count ((aggregate_weather exConsensus).condition)) ∧
    (∀ k ∈ normsOf exConsensus,
      (normsOf exConsensus).count k =
        (normsOf exConsensus).count ((aggregate_weather exConsensus).condition) →
      k ≠ (aggregate_weather exConsensus).condition →
      List.indexOf ((aggregate_weather exConsensus).condition) (normsOf exConsensus) <
        List.indexOf k (normsOf exConsensus))) :=
  ⟨by decide, aggregate_consensus_spec exConsensus (by decide)⟩

lemma str_ne_append_of_not_start (s t : String)
    (h : t.data.isPrefixOf s.data = false) : ∀ d : String, s ≠ t ++ d := by
  intro d heq
  have hdata : s.data = t.data ++ d.data := by
    rw [heq, String.data_append]
  have hpre : t.data <+: s.data := by
    rw [hdata]
    exact List.prefix_append _ _
  rw [← List.isPrefixOf_iff_prefix, h] at hpre
  exact Bool.false_ne_true hpre

lemma http_get_json_err_shape (r : HttpResult) (e : String)
    (h : http_get_json r = .error e) : errShapeCode e := by
  cases r with
  | timeout =>
    simp only [http_get_json, Except.error.injEq] at h
    subst h
    left; rfl
  | clientError n =>
    simp only [http_get_json, Except.error.injEq] at h
    exact Or.inr (Or.inr (Or.inr (Or.inr (Or.inr (Or.inl ⟨n, h.symm⟩)))))
  | otherExn n =>
    simp only [http_get_json, Except.error.injEq] at h
    exact Or.inr (Or.inr (Or.inr (Or.inr (Or.inr (Or.inr (Or.inl ⟨n, h.symm⟩))))))
  | resp status body =>
    simp only [http_get_json] at h
    split at h
    · simp only [Except.error.injEq] at h
      exact Or.inr (Or.inr (Or.inr (Or.inr (Or.inr (Or.inr (Or.inr
        (Or.inl ⟨status, h.symm⟩)))))))
    · match body, h with
      | none, h =>
        simp only [Except.error.injEq] at h
        subst h
        right; left; rfl

lemma geocode_city_err_shape (r : HttpResult) (e : String)
    (h : geocode_city r = .ok (.error e)) : errShapeCode e := by
  unfold geocode_city at h
  cases hr : http_get_json r with
  | error e0 =>
    simp only [hr, Except.ok.injEq, Except.error.injEq] at h
    subst h
    exact http_get_json_err_shape r e0 hr
  | ok data =>
    simp only [hr, bind, Except.bind] at h
    split at h
    · simp only [Except.ok.injEq, Except.error.injEq] at h
      subst h
      right; right; left; rfl
    · split at h
      · exact absurd h (by simp)
      · split at h
        · simp only [Except.ok.injEq, Except.error.injEq] at h
          subst h
          right; right; left; rfl
        · split at h
          · exact absurd h (by simp)
          · split at h
            · exact absurd h (by simp)
            · split at h
              · exact absurd h (by simp)
              · split at h
                · exact absurd h (by simp)
                · exact absurd h (by simp)

lemma get_coordinates_err_shape (cache : Option (Json × Json)) (r : HttpResult)
    (e : String) (h : get_coordinates cache r = .ok (.error e)) : errShapeCode e := by
  cases cache with
  | some c => exact absurd h (by simp [get_coordinates])
  | none => exact geocode_city_err_shape r e h

lemma openMeteo_err_shape (geo wx : HttpResult) (cache : Option (Json × Json)) (e : String)
    (h : fetchErr (openMeteoFetch geo wx cache) = some e) : errShapeCode e := by
  unfold openMeteoFetch at h
  cases hg : get_coordinates cache geo with
  | error pe =>
    simp only [hg, bind, Except.bind, fetchErr] at h
    exact Option.noConfusion h
  | ok res =>
    simp only [hg, bind, Except.bind] at h
    cases res with
    | error err =>
      simp only [pure, Except.pure, fetchErr, Option.some.injEq] at h
      exact h ▸ get_coordinates_err_shape cache geo err hg
    | ok coords =>
      cases hw : http_get_json wx with
      | error err =>
        simp only [hw, pure, Except.pure, fetchErr, Option.some.injEq] at h
        exact h ▸ http_get_json_err_shape wx err hw
      | ok data =>
        simp only [hw] at h
        cases h1 : dictGet data "current" (Json.obj []) with
        | error pe =>
          simp only [h1, fetchErr] at h
          exact Option.noConfusion h
        | ok current =>
          simp only [h1] at h
          cases h2 : dictGet current "temperature_2m" Json.null with
          | error pe =>
            simp only [h2, fetchErr] at h
            exact Option.noConfusion h
          | ok t =>
            simp only [h2] at h
            cases h3 : dictGet current "relative_humidity_2m" Json.null with
            | error pe =>
              simp only [h3, fetchErr] at h
              exact Option.noConfusion h
            | ok hm =>
              simp only [h3] at h
              cases h4 : dictGet current "weather_code" (Json.num 0) with
              | error pe =>
                simp only [h4, fetchErr] at h
                exact Option.noConfusion h
              | ok wc =>
                simp only [h4] at h
                cases h5 : map_wmo_code wc with
                | error pe =>
                  simp only [h5, fetchErr] at h
                  exact Option.noConfusion h
                | ok cond =>
                  simp only [h5, pure, Except.pure, fetchErr] at h
                  exact Option.noConfusion h

lemma wttrinBody_ok_err (data : Json) (w : WeatherData) (h : wttrinBody data = .ok w) :
    w.error = none ∨ w.error = some "invalid response format" := by
  unfold wttrinBody at h
  cases h1 : dictGet data "current_condition" (Json.arr []) with
  | error pe =>
    simp only [h1, bind, Except.bind] at h
    exact Except.noConfusion h
  | ok conditions =>
    simp only [h1, bind, Except.bind] at h
    split at h
    · simp only [pure, Except.pure, Except.ok.injEq] at h
      subst h
      right; rfl
    · cases h2 : pyIndex conditions 0 with
      | error pe =>
        simp only [h2] at h
        exact Except.noConfusion h
      | ok current =>
        simp only [h2] at h
        split at h
        · simp only [pure, Except.pure, Except.ok.injEq] at h
          subst h
          right; rfl
        · cases h3 : dictGet current "temp_C" Json.null with
          | error pe =>
            simp only [h3] at h
            exact Except.noConfusion h
          | ok t =>
            simp only [h3] at h
            cases h4 : dictGet current "humidity" Json.null with
            | error pe =>
              simp only [h4] at h
              exact Except.noConfusion h
            | ok hm =>
              simp only [h4] at h
              cases h5 : dictGet current "weatherDesc" (Json.arr []) with
              | error pe =>
                simp only [h5] at h
                exact Except.noConfusion h
              | ok desc =>
                simp only [h5] at h
                split at h
                · cases h6 : pyIndex desc 0 with
                  | error pe =>
                    simp only [h6] at h
                    exact Except.noConfusion h
                  | ok d0 =>
                    simp only [h6] at h
                    split at h
                    · cases h7 : dictGet d0 "value" (Json.str "") with
                      | error pe =>
                        simp only [h7] at h
                        exact Except.noConfusion h
                      | ok v =>
                        simp only [h7, pure, Except.pure, Except.ok.injEq] at h
                        subst h
                        left; rfl
                    · simp only [pure, Except.pure, Except.ok.injEq] at h
                      subst h
                      left; rfl
                · simp only [pure, Except.pure, Except.ok.injEq] at h
                  subst h
                  left; rfl

lemma wttrin_err_shape (wx : HttpResult) (e : String)
    (h : fetchErr (wttrinFetch wx) = some e) : errShapeCode e := by
  unfold wttrinFetch at h
  cases hw : http_get_json wx with
  | error err =>
    simp only [hw, fetchErr, Option.some.injEq] at h
    exact h ▸ http_get_json_err_shape wx err hw
  | ok data =>
    simp only [hw] at h
    cases hb : wttrinBody data with
    | ok w =>
      simp only [hb, fetchErr] at h
      rcases wttrinBody_ok_err data w hb with hn | hi
      · rw [hn] at h
        exact Option.noConfusion h
      · rw [hi] at h
        simp only [Option.some.injEq] at h
        exact h ▸ Or.inr (Or.inr (Or.inr (Or.inr (Or.inl rfl))))
    | error pe =>
      simp only [hb] at h
      split at h
      · simp only [fetchErr, Option.some.injEq] at h
        exact h ▸ Or.inr (Or.inr (Or.inr (Or.inr (Or.inr (Or.inr (Or.inr (Or.inr
          ⟨pyErrName pe, rfl⟩)))))))
      · simp only [fetchErr] at h
        exact Option.noConfusion h

lemma weatherAPI_err_shape (apiKey : String) (wx : HttpResult) (e : String)
    (h : fetchErr (weatherAPIFetch apiKey wx) = some e) : errShapeCode e := by
  unfold weatherAPIFetch at h
  split at h
  · simp only [pure, Except.pure, fetchErr, Option.some.injEq] at h
    exact h ▸ Or.inr (Or.inr (Or.inr (Or.inl rfl)))
  · cases hw : http_get_json wx with
    | error err =>
      simp only [hw, pure, Except.pure, fetchErr, Option.some.injEq] at h
      exact h ▸ http_get_json_err_shape wx err hw
    | ok data =>
      simp only [hw, bind, Except.bind] at h
      cases h1 : dictGet data "current" (Json.obj []) with
      | error pe =>
        simp only [h1, fetchErr] at h
        exact Option.noConfusion h
      | ok current =>
        simp only [h1] at h
        cases h2 : dictGet current "temp_c" Json.null with
        | error pe =>
          simp only [h2, fetchErr] at h
          exact Option.noConfusion h
        | ok t =>
          simp only [h2] at h
          cases h3 : dictGet current "humidity" Json.null with
          | error pe =>
            simp only [h3, fetchErr] at h
            exact Option.noConfusion h
          | ok hm =>
            simp only [h3] at h
            cases h4 : dictGet current "condition" (Json.obj []) with
            | error pe =>
              simp only [h4, fetchErr] at h
              exact Option.noConfusion h
            | ok condObj =>
              simp only [h4] at h
              cases h5 : dictGet condObj "text" (Json.str "") with
              | error pe =>
                simp only [h5, fetchErr] at h
                exact Option.noConfusion h
              | ok txt =>
                simp only [h5, pure, Except.pure, fetchErr] at h
                exact Option.noConfusion h

lemma weatherstack_err_shape (apiKey : String) (wx : HttpResult) (e : String)
    (h : fetchErr (weatherstackFetch apiKey wx) = some e) : errShapeCode e := by
  unfold weatherstackFetch at h
  split at h
  · simp only [pure, Except.pure, fetchErr, Option.some.injEq] at h
    exact h ▸ Or.inr (Or.inr (Or.inr (Or.inl rfl)))
  · cases hw : http_get_json wx with
    | error err =>
      simp only [hw, pure, Except.pure, fetchErr, Option.some.injEq] at h
      exact h ▸ http_get_json_err_shape wx err hw
    | ok data =>
      simp only [hw, bind, Except.bind] at h
      cases h1 : dictGet data "current" (Json.obj []) with
      | error pe =>
        simp only [h1, fetchErr] at h
        exact Option.noConfusion h
      | ok current =>
        simp only [h1] at h
        cases h2 : dictGet current "temperature" Json.null with
        | error pe =>
          simp only [h2, fetchErr] at h
          exact Option.noConfusion h
        | ok t =>
          simp only [h2] at h
          cases h3 : dictGet current "humidity" Json.null with
          | error pe =>
            simp only [h3, fetchErr] at h
            exact Option.noConfusion h
          | ok hm =>
            simp only [h3] at h
            cases h4 : dictGet current "weather_descriptions" (Json.arr []) with
            | error pe =>
              simp only [h4, fetchErr] at h
              exact Option.noConfusion h
            | ok descriptions =>
              simp only [h4] at h
              split at h
              · cases h5 : pyIndex descriptions 0 with
                | error pe =>
                  simp only [h5, fetchErr] at h
                  exact Option.noConfusion h
                | ok d0 =>
                  simp only [h5, pure, Except.pure, fetchErr] at h
                  exact Option.noConfusion h
              · simp only [pure, Except.pure, fetchErr] at h
                exact Option.noConfusion h

lemma meteosource_err_shape (apiKey : String) (wx : HttpResult) (e : String)
    (h : fetchErr (meteosourceFetch apiKey wx) = some e) : errShapeCode e := by
  unfold meteosourceFetch at h
  split at h
  · simp only [pure, Except.pure, fetchErr, Option.some.injEq] at h
    exact h ▸ Or.inr (Or.inr (Or.inr (Or.inl rfl)))
  · cases hw : http_get_json wx with
    | error err =>
      simp only [hw, pure, Except.pure, fetchErr, Option.some.injEq] at h
      exact h ▸ http_get_json_err_shape wx err hw
    | ok data =>
      simp only [hw, bind, Except.bind] at h
      cases h1 : dictGet data "current" (Json.obj []) with
      | error pe =>
        simp only [h1, fetchErr] at h
        exact Option.noConfusion h
      | ok current =>
        simp only [h1] at h
        cases h2 : dictGet current "temperature" Json.null with
        | error pe =>
          simp only [h2, fetchErr] at h
          exact Option.noConfusion h
        | ok t =>
          simp only [h2] at h
          cases h3 : dictGet current "summary" (Json.str "") with
          | error pe =>
            simp only [h3, fetchErr] at h
            exact Option.noConfusion h
          | ok s =>
            simp only [h3] at h
            cases h4 : dictGet current "humidity" Json.null with
            | error pe =>
              simp only [h4, fetchErr] at h
              exact Option.noConfusion h
            | ok hm =>
              simp only [h4, pure, Except.pure, fetchErr] at h
              exact Option.noConfusion h

lemma pirateWeather_err_shape (apiKey : String) (geo wx : HttpResult)
    (cache : Option (Json × Json)) (e : String)
    (h : fetchErr (pirateWeatherFetch apiKey geo wx cache) = some e) : errShapeCode e := by
  unfold pirateWeatherFetch at h
  split at h
  · simp only [pure, Except.pure, fetchErr, Option.some.injEq] at h
    exact h ▸ Or.inr (Or.inr (Or.inr (Or.inl rfl)))
  · cases hg : get_coordinates cache geo with
    | error pe =>
      simp only [hg, bind, Except.bind, fetchErr] at h
      exact Option.noConfusion h
    | ok res =>
      simp only [hg, bind, Except.bind] at h
      cases res with
      | error err =>
        simp only [pure, Except.pure, fetchErr, Option.some.injEq] at h
        exact h ▸ get_coordinates_err_shape cache geo err hg
      | ok coords =>
        cases hw : http_get_json wx with
        | error err =>
          simp only [hw, pure, Except.pure, fetchErr, Option.some.injEq] at h
          exact h ▸ http_get_json_err_shape wx err hw
        | ok data =>
          simp only [hw] at h
          cases h1 : dictGet data "currently" (Json.obj []) with
          | error pe =>
            simp only [h1, fetchErr] at h
            exact Option.noConfusion h
          | ok currently =>
            simp only [h1] at h
            cases h2 : dictGet currently "temperature" Json.null with
            | error pe =>
              simp only [h2, fetchErr] at h
              exact Option.noConfusion h
            | ok t =>
              simp only [h2] at h
              cases h3 : dictGet currently "humidity" Json.null with
              | error pe =>
                simp only [h3, fetchErr] at h
                exact Option.noConfusion h
              | ok hraw0 =>
                simp only [h3] at h
                cases h4 : dictGet currently "summary" (Json.str "") with
                | error pe =>
                  simp only [h4, fetchErr] at h
                  exact Option.noConfusion h
                | ok s =>
                  simp only [h4, pure, Except.pure, fetchErr] at h
                  exact Option.noConfusion h

/-- C7 (corrected): every error string any of the six adapters can return in
`WeatherData.error` has one of the shapes "timeout", "invalid JSON",
"city not found", "API key required", "invalid response format",
"network error: <detail>", "unexpected: <detail>", "HTTP <status>",
"parse error: <detail>" — the code's actual taxonomy, which differs from the
one the spec lists (see the counterexample). -/
theorem adapter_error_taxonomy :
    ∀ (geo wx : HttpResult) (cache : Option (Json × Json)) (key e : String),
    (fetchErr (openMeteoFetch geo wx cache) = some e → errShapeCode e) ∧
    (fetchErr (wttrinFetch wx) = some e → errShapeCode e) ∧
    (fetchErr (weatherAPIFetch key wx) = some e → errShapeCode e) ∧
    (fetchErr (weatherstackFetch key wx) = some e → errShapeCode e) ∧
    (fetchErr (meteosourceFetch key wx) = some e → errShapeCode e) ∧
    (fetchErr (pirateWeatherFetch key geo wx cache) = some e → errShapeCode e) :=
  fun geo wx cache key e =>
    ⟨openMeteo_err_shape geo wx cache e, wttrin_err_shape wx e,
     weatherAPI_err_shape key wx e, weatherstack_err_shape key wx e,
     meteosource_err_shape key wx e, pirateWeather_err_shape key geo wx cache e⟩

/-- C7 counterexample: a 200 response whose JSON body is an empty object makes
the wttr.in adapter surface "invalid response format", a string matching none
of the shapes in the spec's taxonomy. -/
theorem adapter_error_taxonomy_cex :
    fetchErr (wttrinFetch (HttpResult.resp 200 (some (Json.obj [])))) =
      some "invalid response format" ∧
    ¬ errShapeSpec "invalid response format" := by
  refine ⟨rfl, ?_⟩
  intro hspec
  rcases hspec with h | ⟨n, h⟩ | h | ⟨d, h⟩ | h | h | h | ⟨d, h⟩ | ⟨d, h⟩
  · exact absurd h (by decide)
  · exact str_ne_append_of_not_start _ "HTTP " (by decide) _ h
  · exact absurd h (by decide)
  · exact str_ne_append_of_not_start _ "network error: " (by decide) _ h
  · exact absurd h (by decide)
  · exact absurd h (by decide)
  · exact absurd h (by decide)
  · exact str_ne_append_of_not_start _ "data parsing error: " (by decide) _ h
  · exact str_ne_append_of_not_start _ "geocoding request failed: " (by decide) _ h

theorem adapter_error_taxonomy_witness :
    fetchErr (wttrinFetch HttpResult.timeout) = some "timeout" ∧ errShapeCode "timeout" :=
  ⟨rfl, (adapter_error_taxonomy HttpResult.timeout HttpResult.timeout none "k"
    "timeout").2.1 rfl⟩

/-! ### Claim that adapters never raise (violated by the code) -/
/-- C8 evaluated at a failing input: with cached coordinates and a 200
response whose body is `\x7b"current": "boom"\x7d`, the Open-Meteo adapter's
`current.get('temperature_2m')` is attribute access on a string, so the fetch
raises `AttributeError` past the adapter boundary instead of returning an
observation with a non-null error. -/
theorem openMeteo_raises_on_bad_payload :
    openMeteoFetch HttpResult.timeout
      (HttpResult.resp 200 (some (Json.obj [("current", Json.str "boom")])))
      (some (Json.num 48, Json.num 11)) = .error PyErr.attributeError := rfl

/-! ### Claim about non-null humidity on success -/
lemma openMeteo_humidity_some (geo wx : HttpResult) (cache : Option (Json × Json))
    (w : WeatherData) (h : openMeteoFetch geo wx cache = .ok w) (he : w.error = none) :
    w.humidity.isSome = true := by
  unfold openMeteoFetch at h
  cases hg : get_coordinates cache geo with
  | error pe =>
    simp only [hg, bind, Except.bind] at h
    exact Except.noConfusion h
  | ok res =>
    simp only [hg, bind, Except.bind] at h
    cases res with
    | error err =>
      simp only [pure, Except.pure, Except.ok.injEq] at h
      subst h
      exact Option.noConfusion he
    | ok coords =>
      cases hw : http_get_json wx with
      | error err =>
        simp only [hw, pure, Except.pure, Except.ok.injEq] at h
        subst h
        exact Option.noConfusion he
      | ok data =>
        simp only [hw] at h
        cases h1 : dictGet data "current" (Json.obj []) with
        | error pe =>
          simp only [h1] at h
          exact Except.noConfusion h
        | ok current =>
          simp only [h1] at h
          cases h2 : dictGet current "temperature_2m" Json.null with
          | error pe =>
            simp only [h2] at h
            exact Except.noConfusion h
          | ok t =>
            simp only [h2] at h
            cases h3 : dictGet current "relative_humidity_2m" Json.null with
            | error pe =>
              simp only [h3] at h
              exact Except.noConfusion h
            | ok hm =>
              simp only [h3] at h
              cases h4 : dictGet current "weather_code" (Json.num 0) with
              | error pe =>
                simp only [h4] at h
                exact Except.noConfusion h
              | ok wc =>
                simp only [h4] at h
                cases h5 : map_wmo_code wc with
                | error pe =>
                  simp only [h5] at h
                  exact Except.noConfusion h
                | ok cond =>
                  simp only [h5, pure, Except.pure, Except.ok.injEq] at h
                  subst h
                  rfl

lemma wttrinBody_humidity_some (data : Json) (w : WeatherData)
    (h : wttrinBody data = .ok w) (he : w.error = none) : w.humidity.isSome = true := by
  unfold wttrinBody at h
  cases h1 : dictGet data "current_condition" (Json.arr []) with
  | error pe =>
    simp only [h1, bind, Except.bind] at h
    exact Except.noConfusion h
  | ok conditions =>
    simp only [h1, bind, Except.bind] at h
    split at h
    · simp only [pure, Except.pure, Except.ok.injEq] at h
      subst h
      exact Option.noConfusion he
    · cases h2 : pyIndex conditions 0 with
      | error pe =>
        simp only [h2] at h
        exact Except.noConfusion h
      | ok current =>
        simp only [h2] at h
        split at h
        · simp only [pure, Except.pure, Except.ok.injEq] at h
          subst h
          exact Option.noConfusion he
        · cases h3 : dictGet current "temp_C" Json.null with
          | error pe =>
            simp only [h3] at h
            exact Except.noConfusion h
          | ok t =>
            simp only [h3] at h
            cases h4 : dictGet current "humidity" Json.null with
            | error pe =>
              simp only [h4] at h
              exact Except.noConfusion h
            | ok hm =>
              simp only [h4] at h
              cases h5 : dictGet current "weatherDesc" (Json.arr []) with
              | error pe =>
                simp only [h5] at h
                exact Except.noConfusion h
              | ok desc =>
                simp only [h5] at h
                split at h
                · cases h6 : pyIndex desc 0 with
                  | error pe =>
                    simp only [h6] at h
                    exact Except.noConfusion h
                  | ok d0 =>
                    simp only [h6] at h
                    split at h
                    · cases h7 : dictGet d0 "value" (Json.str "") with
                      | error pe =>
                        simp only [h7] at h
                        exact Except.noConfusion h
                      | ok v =>
                        simp only [h7, pure, Except.pure, Except.ok.injEq] at h
                        subst h
                        rfl
                    · simp only [pure, Except.pure, Except.ok.injEq] at h
                      subst h
                      rfl
                · simp only [pure, Except.pure, Except.ok.injEq] at h
                  subst h
                  rfl

lemma wttrin_humidity_some (wx : HttpResult) (w : WeatherData)
    (h : wttrinFetch wx = .ok w) (he : w.error = none) : w.humidity.isSome = true := by
  unfold wttrinFetch at h
  cases hw : http_get_json wx with
  | error err =>
    simp only [hw, Except.ok.injEq] at h
    subst h
    exact Option.noConfusion he
  | ok data =>
    simp only [hw] at h
    cases hb : wttrinBody data with
    | ok w0 =>
      simp only [hb, Except.ok.injEq] at h
      subst h
      exact wttrinBody_humidity_some data _ hb he
    | error pe =>
      simp only [hb] at h
      split at h
      · simp only [Except.ok.injEq] at h
        subst h
        exact Option.noConfusion he
      · exact Except.noConfusion h

lemma weatherAPI_humidity_some (apiKey : String) (wx : HttpResult) (w : WeatherData)
    (h : weatherAPIFetch apiKey wx = .ok w) (he : w.error = none) :
    w.humidity.isSome = true := by
  unfold weatherAPIFetch at h
  split at h
  · simp only [pure, Except.pure, Except.ok.injEq] at h
    subst h
    exact Option.noConfusion he
  · cases hw : http_get_json wx with
    | error err =>
      simp only [hw, pure, Except.pure, Except.ok.injEq] at h
      subst h
      exact Option.noConfusion he
    | ok data =>
      simp only [hw, bind, Except.bind] at h
      cases h1 : dictGet data "current" (Json.obj []) with
      | error pe =>
        simp only [h1] at h
        exact Except.noConfusion h
      | ok current =>
        simp only [h1] at h
        cases h2 : dictGet current "temp_c" Json.null with
        | error pe =>
          simp only [h2] at h
          exact Except.noConfusion h
        | ok t =>
          simp only [h2] at h
          cases h3 : dictGet current "humidity" Json.null with
          | error pe =>
            simp only [h3] at h
            exact Except.noConfusion h
          | ok hm =>
            simp only [h3] at h
            cases h4 : dictGet current "condition" (Json.obj []) with
            | error pe =>
              simp only [h4] at h
              exact Except.noConfusion h
            | ok condObj =>
              simp only [h4] at h
              cases h5 : dictGet condObj "text" (Json.str "") with
              | error pe =>
                simp only [h5] at h
                exact Except.noConfusion h
              | ok txt =>
                simp only [h5, pure, Except.pure, Except.ok.injEq] at h
                subst h
                rfl

lemma weatherstack_humidity_some (apiKey : String) (wx : HttpResult) (w : WeatherData)
    (h : weatherstackFetch apiKey wx = .ok w) (he : w.error = none) :
    w.humidity.isSome = true := by
  unfold weatherstackFetch at h
  split at h
  · simp only [pure, Except.pure, Except.ok.injEq] at h
    subst h
    exact Option.noConfusion he
  · cases hw : http_get_json wx with
    | error err =>
      simp only [hw, pure, Except.pure, Except.ok.injEq] at h
      subst h
      exact Option.noConfusion he
    | ok data =>
      simp only [hw, bind, Except.bind] at h
      cases h1 : dictGet data "current" (Json.obj []) with
      | error pe =>
        simp only [h1] at h
        exact Except.noConfusion h
      | ok current =>
        simp only [h1] at h
        cases h2 : dictGet current "temperature" Json.null with
        | error pe =>
          simp only [h2] at h
          exact Except.noConfusion h
        | ok t =>
          simp only [h2] at h
          cases h3 : dictGet current "humidity" Json.null with
          | error pe =>
            simp only [h3] at h
            exact Except.noConfusion h
          | ok hm =>
            simp only [h3] at h
            cases h4 : dictGet current "weather_descriptions" (Json.arr []) with
            | error pe =>
              simp only [h4] at h
              exact Except.noConfusion h
            | ok descriptions =>
              simp only [h4] at h
              split at h
              · cases h5 : pyIndex descriptions 0 with
                | error pe =>
                  simp only [h5] at h
                  exact Except.noConfusion h
                | ok d0 =>
                  simp only [h5, pure, Except.pure, Except.ok.injEq] at h
                  subst h
                  rfl
              · simp only [pure, Except.pure, Except.ok.injEq] at h
                subst h
                rfl

lemma pirateWeather_humidity_some (apiKey : String) (geo wx : HttpResult)
    (cache : Option (Json × Json)) (w : WeatherData)
    (h : pirateWeatherFetch apiKey geo wx cache = .ok w) (he : w.error = none) :
    w.humidity.isSome = true := by
  unfold pirateWeatherFetch at h
  split at h
  · simp only [pure, Except.pure, Except.ok.injEq] at h
    subst h
    exact Option.noConfusion he
  · cases hg : get_coordinates cache geo with
    | error pe =>
      simp only [hg, bind, Except.bind] at h
      exact Except.noConfusion h
    | ok res =>
      simp only [hg, bind, Except.bind] at h
      cases res with
      | error err =>
        simp only [pure, Except.pure, Except.ok.injEq] at h
        subst h
        exact Option.noConfusion he
      | ok coords =>
        cases hw : http_get_json wx with
        | error err =>
          simp only [hw, pure, Except.pure, Except.ok.injEq] at h
          subst h
          exact Option.noConfusion he
        | ok data =>
          simp only [hw] at h
          cases h1 : dictGet data "currently" (Json.obj []) with
          | error pe =>
            simp only [h1] at h
            exact Except.noConfusion h
          | ok currently =>
            simp only [h1] at h
            cases h2 : dictGet currently "temperature" Json.null with
            | error pe =>
              simp only [h2] at h
              exact Except.noConfusion h
            | ok t =>
              simp only [h2] at h
              cases h3 : dictGet currently "humidity" Json.null with
              | error pe =>
                simp only [h3] at h
                exact Except.noConfusion h
              | ok hraw0 =>
                simp only [h3] at h
                cases h4 : dictGet currently "summary" (Json.str "") with
                | error pe =>
                  simp only [h4] at h
                  exact Except.noConfusion h
                | ok s =>
                  simp only [h4, pure, Except.pure, Except.ok.injEq] at h
                  subst h
                  rfl

/-- C10: on a successful (error-free) fetch, the Open-Meteo, wttr.in,
WeatherAPI.com, Weatherstack
and Pirate Weather adapters always set a non-null humidity: a provider that
omits humidity yields `some 0` (shown concretely for Open-Meteo), Pirate
Weather forces a non-positive raw humidity to `0.0`, such observations are
counted by the aggregator's humidity sample count, and only Meteosource can
return a null humidity. -/
theorem adapters_humidity_nonnull :
    (∀ (geo wx : HttpResult) (cache : Option (Json × Json)) (w : WeatherData),
      openMeteoFetch geo wx cache = .ok w → w.error = none → w.humidity.isSome = true) ∧
    (∀ (wx : HttpResult) (w : WeatherData),
      wttrinFetch wx = .ok w → w.error = none → w.humidity.isSome = true) ∧
    (∀ (key : String) (wx : HttpResult) (w : WeatherData),
      weatherAPIFetch key wx = .ok w → w.error = none → w.humidity.isSome = true) ∧
    (∀ (key : String) (wx : HttpResult) (w : WeatherData),
      weatherstackFetch key wx = .ok w → w.error = none → w.humidity.isSome = true) ∧
    (∀ (key : String) (geo wx : HttpResult) (cache : Option (Json × Json)) (w : WeatherData),
      pirateWeatherFetch key geo wx cache = .ok w → w.error = none →
        w.humidity.isSome = true) ∧
    openMeteoFetch HttpResult.timeout
      (HttpResult.resp 200 (some (Json.obj [("current",
        Json.obj [("temperature_2m", Json.num 20)])])))
      (some (Json.num 1, Json.num 2)) = .ok omNoHum ∧
    pirateWeatherFetch "k" HttpResult.timeout
      (HttpResult.resp 200 (some (Json.obj [("currently",
        Json.obj [("temperature", Json.num 5), ("humidity", Json.num (-1)),
          ("summary", Json.str "Rain")])])))
      (some (Json.num 1, Json.num 2)) =
      .ok { source := "Pirate Weather", temperature := 5, humidity := some 0,
            condition := "Rain" } ∧
    meteosourceFetch "k" (HttpResult.resp 200 (some (Json.obj [("current",
      Json.obj [("temperature", Json.num 15), ("summary", Json.str "Sunny")])]))) =
      .ok { source := "Meteosource", temperature := 15, humidity := none,
            condition := "Sunny" } ∧
    (aggregate_weather [omNoHum]).hum_count = 1 :=
  ⟨openMeteo_humidity_some, wttrin_humidity_some, weatherAPI_humidity_some,
   weatherstack_humidity_some, pirateWeather_humidity_some, rfl, rfl, rfl, by decide⟩

theorem adapters_humidity_nonnull_witness : omNoHum.humidity.isSome = true :=
  adapters_humidity_nonnull.1 HttpResult.timeout
    (HttpResult.resp 200 (some (Json.obj [("current",
      Json.obj [("temperature_2m", Json.num 20)])])))
    (some (Json.num 1, Json.num 2)) _ rfl rfl

lemma runTimed_strip (t1 t2 : ℕ → ℚ) (city : String) (cache : Option (Json × Json)) :
    ∀ (l : List Adapter) (i j : ℕ),
      Except.map (fun ws => ws.map stripDur) (runTimed t1 city cache l i) =
      Except.map (fun ws => ws.map stripDur) (runTimed t2 city cache l j) := by
  intro l
  induction l with
  | nil => intro i j; rfl
  | cons s rest ih =>
    intro i j
    simp only [runTimed]
    cases hf : s.fetch city cache with
    | error pe => rfl
    | ok w =>
      have hr := ih (i + 1) (j + 1)
      cases hr1 : runTimed t1 city cache rest (i + 1) with
      | error pe =>
        rw [hr1] at hr
        cases hr2 : runTimed t2 city cache rest (j + 1) with
        | error pe2 =>
          rw [hr2] at hr
          simp only [Except.map, Except.error.injEq] at hr
          subst hr
          rfl
        | ok ws2 =>
          rw [hr2] at hr
          exact absurd hr (by simp [Except.map])
      | ok ws1 =>
        rw [hr1] at hr
        cases hr2 : runTimed t2 city cache rest (j + 1) with
        | error pe2 =>
          rw [hr2] at hr
          exact absurd hr (by simp [Except.map])
        | ok ws2 =>
          rw [hr2] at hr
          simp only [Except.map, Except.ok.injEq] at hr
          simp only [Except.map, List.map_cons, Except.ok.injEq, List.cons.injEq]
          exact ⟨rfl, hr⟩

lemma runTimed_length (t : ℕ → ℚ) (city : String) (cache : Option (Json × Json)) :
    ∀ (l : List Adapter) (i : ℕ) (ws : List WeatherData),
      runTimed t city cache l i = .ok ws → ws.length = l.length := by
  intro l
  induction l with
  | nil =>
    intro i ws h
    simp only [runTimed, Except.ok.injEq] at h
    subst h
    rfl
  | cons s rest ih =>
    intro i ws h
    simp only [runTimed] at h
    cases hf : s.fetch city cache with
    | error pe =>
      simp only [hf] at h
      exact Except.noConfusion h
    | ok w =>
      simp only [hf] at h
      cases hr : runTimed t city cache rest (i + 1) with
      | error pe =>
        simp only [hr] at h
        exact Except.noConfusion h
      | ok ws1 =>
        simp only [hr, Except.ok.injEq] at h
        subst h
        simp [ih (i + 1) ws1 hr]

/-- C9: with adapter behaviour fixed, concurrent and sequential fetch agree on
everything except the duration stamps: stripped of `duration_ms`, the two
result lists are identical (same length, same order, same per-adapter
success/failure outcome at each position), and a successful batch returns
exactly one observation per supplied adapter, in adapter order. -/
theorem fetch_modes_equivalent (tc ts : ℕ → ℚ) (geo : HttpResult) (city : String)
    (sources : List Adapter) :
    Except.map (fun ws => ws.map stripDur) (fetch_weather_concurrently tc geo city sources) =
      Except.map (fun ws => ws.map stripDur)
        (fetch_weather_sequentially ts geo city sources) ∧
    (∀ ws, fetch_weather_concurrently tc geo city sources = .ok ws →
      ws.length = sources.length) := by
  unfold fetch_weather_concurrently fetch_weather_sequentially
  cases buildCacheE geo with
  | error pe => exact ⟨rfl, fun ws h => Except.noConfusion h⟩
  | ok cache =>
    exact ⟨runTimed_strip tc ts city cache sources 0 0,
      fun ws h => runTimed_length tc city cache sources 0 ws h⟩

theorem fetch_modes_equivalent_witness :
    (Except.map (fun ws => ws.map stripDur)
      (fetch_weather_concurrently (fun _ => 5) HttpResult.timeout "Berlin"
        [Adapter.mk "A" (fun _ _ => .ok { source := "A", temperature := 1 }),
         Adapter.mk "B" (fun _ _ => .ok { source := "B", error := some "timeout" })]) =
     Except.map (fun ws => ws.map stripDur)
      (fetch_weather_sequentially (fun _ => 9) HttpResult.timeout "Berlin"
        [Adapter.mk "A" (fun _ _ => .ok { source := "A", temperature := 1 }),
         Adapter.mk "B" (fun _ _ => .ok { source := "B", error := some "timeout" })])) ∧
    (fetch_weather_concurrently (fun _ => 5) HttpResult.timeout "Berlin"
        [Adapter.mk "A" (fun _ _ => .ok { source := "A", temperature := 1 }),
         Adapter.mk "B" (fun _ _ => .ok { source := "B", error := some "timeout" })] =
      .ok [{ source := "A", temperature := 1, duration_ms := some 5 },
           { source := "B", error := some "timeout", duration_ms := some 5 }] →
      ([{ source := "A", temperature := 1, duration_ms := some 5 },
        ({ source := "B", error := some "timeout", duration_ms := some 5 }
          : WeatherData)] : List WeatherData).length =
        ([Adapter.mk "A" (fun _ _ => .ok { source := "A", temperature := 1 }),
          Adapter.mk "B" (fun _ _ => .ok { source := "B", error := some "timeout" })]
          : List Adapter).length) :=
  ⟨(fetch_modes_equivalent (fun _ => 5) (fun _ => 9) HttpResult.timeout "Berlin"
      [Adapter.mk "A" (fun _ _ => .ok { source := "A", temperature := 1 }),
       Adapter.mk "B" (fun _ _ => .ok { source := "B", error := some "timeout" })]).1,
   fun h => (fetch_modes_equivalent (fun _ => 5) (fun _ => 9) HttpResult.timeout "Berlin"
      [Adapter.mk "A" (fun _ _ => .ok { source := "A", temperature := 1 }),
       Adapter.mk "B" (fun _ _ => .ok { source := "B", error := some "timeout" })]).2 _ h⟩
